import Mathlib

/-!
A shallow embedding of the decoration controller of `sctk_gtk`
(src/lib.rs, src/pointer.rs, src/layout.rs).

Conventions of the embedding:
* `f64` cursor coordinates are modelled as `ℚ`; all comparisons performed by
  the source on coordinates are exact at these magnitudes.
* `Duration` timestamps are modelled as `ℚ`, measured in milliseconds.
* `u32`/`i32` fields are modelled as `Nat`/`Int`; the one subtraction that can
  underflow on realistic inputs (`width - 5` for `width < 5`) is modelled with
  the release-mode wrap-around semantics (`wrapSub5`).
* Bit-flag sets (`WindowState`, `WindowManagerCapabilities`) are records of
  `Bool`s holding exactly the flags the embedded code reads.
* Wayland handles, the buffer pool, the title string and GTK widgets are not
  modelled: no embedded operation reads them.
-/

namespace SctkGtk

/-- src/lib.rs: `const HEADER_SIZE: u32 = 50`. -/
def HEADER_SIZE : Nat := 50

/-- src/lib.rs: `const BORDER_SIZE: u32 = 10`. -/
def BORDER_SIZE : Nat := 10

/-- src/lib.rs: `const VISIBLE_BORDER_SIZE: u32 = 1`. -/
def VISIBLE_BORDER_SIZE : Nat := 1

/-- src/pointer.rs: `enum ButtonKind`. -/
inductive ButtonKind
  | Close
  | Maximize
  | Minimize
deriving DecidableEq

/-- src/pointer.rs: `enum Location`. -/
inductive Location
  | None
  | Head
  | Top
  | TopRight
  | Right
  | BottomRight
  | Bottom
  | BottomLeft
  | Left
  | TopLeft
  | Button (kind : ButtonKind)
deriving DecidableEq

/-- csd_frame `ResizeEdge` (only the variants the code produces). -/
inductive ResizeEdge
  | Top
  | TopLeft
  | Left
  | BottomLeft
  | Bottom
  | BottomRight
  | Right
  | TopRight
deriving DecidableEq

/-- csd_frame `FrameAction` (only the variants the code produces). -/
inductive FrameAction
  | Close
  | Minimize
  | Maximize
  | UnMaximize
  | Move
  | Resize (edge : ResizeEdge)
  | ShowMenu (x y : Int)
deriving DecidableEq

/-- csd_frame `CursorIcon` (only the variants the code produces). -/
inductive CursorIcon
  | Default
  | NResize
  | NeResize
  | EResize
  | SeResize
  | SResize
  | SwResize
  | WResize
  | NwResize
deriving DecidableEq

/-- csd_frame `FrameClick` (only the variants the code distinguishes). -/
inductive FrameClick
  | Normal
  | Alternate
deriving DecidableEq

/-- csd_frame `WindowState`: the four flags the embedded code reads. -/
structure WindowState where
  activated : Bool
  fullscreen : Bool
  maximized : Bool
  tiled : Bool
deriving DecidableEq

/-- csd_frame `WindowManagerCapabilities`: the flags the embedded code reads. -/
structure WindowManagerCapabilities where
  maximize : Bool
  minimize : Bool
  window_menu : Bool
deriving DecidableEq

/-- src/pointer.rs: `DOUBLE_CLICK_DURATION = Duration::from_millis(400)`,
in milliseconds. -/
def DOUBLE_CLICK_DURATION : ℚ := 400

/-- `Duration::saturating_sub` on millisecond-valued durations. -/
def saturatingSub (a b : ℚ) : ℚ := max (a - b) 0

/-- Rust `f64 as i32`: truncation toward zero, saturating at the `i32` range. -/
def f64_as_i32 (q : ℚ) : Int :=
  max (-(2 ^ 31)) (min (2 ^ 31 - 1) (Int.tdiv q.num (q.den : Int)))

/-- src/pointer.rs: `struct MouseState`. -/
structure MouseState where
  location : Location
  cursor_pos : Option (ℚ × ℚ)
  button_pressed : Bool
  last_normal_click : Option ℚ
deriving DecidableEq

/-- `MouseState::default()`. -/
def MouseState.default : MouseState :=
  { location := Location.None
    cursor_pos := none
    button_pressed := false
    last_normal_click := none }

/-- src/pointer.rs: `MouseState::click`.  Returns the updated state together
with the optional `FrameAction` (the Rust method mutates `self`). -/
def MouseState.click (self : MouseState) (timestamp : ℚ) (pressed : Bool)
    (resizable : Bool) (state : WindowState)
    (wm_capabilities : WindowManagerCapabilities) :
    MouseState × Option FrameAction :=
  let maximized := state.maximized
  match self.location with
  | Location.Top =>
    if resizable then (self, some (FrameAction.Resize ResizeEdge.Top)) else (self, none)
  | Location.TopLeft =>
    if resizable then (self, some (FrameAction.Resize ResizeEdge.TopLeft)) else (self, none)
  | Location.Left =>
    if resizable then (self, some (FrameAction.Resize ResizeEdge.Left)) else (self, none)
  | Location.BottomLeft =>
    if resizable then (self, some (FrameAction.Resize ResizeEdge.BottomLeft)) else (self, none)
  | Location.Bottom =>
    if resizable then (self, some (FrameAction.Resize ResizeEdge.Bottom)) else (self, none)
  | Location.BottomRight =>
    if resizable then (self, some (FrameAction.Resize ResizeEdge.BottomRight)) else (self, none)
  | Location.Right =>
    if resizable then (self, some (FrameAction.Resize ResizeEdge.Right)) else (self, none)
  | Location.TopRight =>
    if resizable then (self, some (FrameAction.Resize ResizeEdge.TopRight)) else (self, none)
  | Location.Button button_kind =>
    -- `self.button_pressed = pressed` happens before the kind dispatch,
    -- also on the `return None` paths.
    let self := { self with button_pressed := pressed }
    (self,
      if !pressed then
        match button_kind with
        | ButtonKind.Close => some FrameAction.Close
        | ButtonKind.Maximize =>
          some (if maximized then FrameAction.UnMaximize else FrameAction.Maximize)
        | ButtonKind.Minimize => some FrameAction.Minimize
      else none)
  | Location.Head =>
    if pressed && wm_capabilities.maximize then
      -- `self.last_normal_click.replace(timestamp)` returns the old value.
      let last := self.last_normal_click
      let self := { self with last_normal_click := some timestamp }
      (self,
        match last with
        | some l =>
          if saturatingSub timestamp l < DOUBLE_CLICK_DURATION then
            some (if maximized then FrameAction.UnMaximize else FrameAction.Maximize)
          else some FrameAction.Move
        | none => some FrameAction.Move)
    else if pressed then (self, some FrameAction.Move)
    else (self, none)
  | Location.None => (self, none)

/-- src/pointer.rs: `MouseState::alternate_click`. -/
def MouseState.alternate_click (self : MouseState) (pressed : Bool)
    (wm_capabilities : WindowManagerCapabilities) :
    MouseState × Option FrameAction :=
  -- Invalidate the normal click.
  let self := { self with last_normal_click := none }
  match self.location with
  | Location.Head | Location.Button _ =>
    (self,
      if pressed && wm_capabilities.window_menu then
        self.cursor_pos.map fun pos =>
          FrameAction.ShowMenu (f64_as_i32 pos.1) (f64_as_i32 pos.2)
      else none)
  | _ => (self, none)

/-- src/pointer.rs: `MouseState::moved`. -/
def MouseState.moved (self : MouseState) (location : Location) (x y : ℚ)
    (resizable : Bool) (window_state : WindowState) : MouseState × CursorIcon :=
  let self := { self with location := location, cursor_pos := some (x, y) }
  (self,
    if !resizable || window_state.maximized then CursorIcon.Default
    else
      match location with
      | Location.Top => CursorIcon.NResize
      | Location.TopRight => CursorIcon.NeResize
      | Location.Right => CursorIcon.EResize
      | Location.BottomRight => CursorIcon.SeResize
      | Location.Bottom => CursorIcon.SResize
      | Location.BottomLeft => CursorIcon.SwResize
      | Location.Left => CursorIcon.WResize
      | Location.TopLeft => CursorIcon.NwResize
      | _ => CursorIcon.Default)

/-- src/pointer.rs: `MouseState::left`. -/
def MouseState.left (self : MouseState) : MouseState :=
  { self with location := Location.None }

/-- src/pointer.rs: `MouseState::in_frame`. -/
def MouseState.in_frame (self : MouseState) : Bool :=
  match self.location with
  | Location.Head | Location.TopLeft | Location.TopRight | Location.Top
  | Location.Button _ => true
  | _ => false

/-- src/lib.rs: `struct ButtonState` (a button's kind and hit-rectangle). -/
structure ButtonState where
  x : Int
  y : Int
  width : Nat
  height : Nat
  button_kind : ButtonKind
deriving DecidableEq

/-- src/lib.rs: `GtkFrame::in_button` — closed-rectangle containment test. -/
def in_button (cursor_pos : ℚ × ℚ) (state : ButtonState) : Bool :=
  decide ((state.x : ℚ) ≤ cursor_pos.1) &&
  decide (cursor_pos.1 ≤ ((state.x + (state.width : Int) : Int) : ℚ)) &&
  decide ((state.y : ℚ) ≤ cursor_pos.2) &&
  decide (cursor_pos.2 ≤ ((state.y + (state.height : Int) : Int) : ℚ))

/-- src/lib.rs: `enum CursorArea`. -/
inductive CursorArea
  | Frame
  | TopShadow
  | BottomShadow
  | LeftShadow
  | RightShadow
  | Window
deriving DecidableEq

/-- Rust `u32` subtraction `w - 5` with the release-build wrap-around
semantics (reachable when `w < 5`). -/
def wrapSub5 (w : Nat) : Nat := (w + 2 ^ 32 - 5) % 2 ^ 32

/-- src/lib.rs: `GtkFrame::mouse_location`.  The Rust method reads
`self.buttons`; the button list is passed explicitly here. -/
def mouse_location (buttons : List ButtonState) (x y : ℚ) (width height : Nat)
    (cursor_area : CursorArea) : Location :=
  match cursor_area with
  | CursorArea.Frame =>
    if x ≤ 5 ∧ y ≤ 5 then Location.TopLeft
    else if x ≥ (wrapSub5 width : ℚ) ∧ y ≤ 5 then Location.TopRight
    else if 5 < x ∧ x < (wrapSub5 width : ℚ) ∧ y < 5 then Location.Top
    else
      match buttons.find? (fun state => in_button (x, y) state) with
      | some state => Location.Button state.button_kind
      | none => Location.Head
  | CursorArea.TopShadow =>
    if x ≤ 5 then Location.TopLeft
    else if x ≥ (wrapSub5 width : ℚ) then Location.TopRight
    else Location.Top
  | CursorArea.BottomShadow =>
    if x ≤ 5 then Location.BottomLeft
    else if x ≥ (wrapSub5 width : ℚ) then Location.BottomRight
    else Location.Bottom
  | CursorArea.LeftShadow =>
    if y ≤ 5 then Location.TopLeft
    else if y ≥ (wrapSub5 height : ℚ) then Location.BottomLeft
    else Location.Left
  | CursorArea.RightShadow =>
    if y ≤ 5 then Location.TopRight
    else if y ≥ (wrapSub5 height : ℚ) then Location.BottomRight
    else Location.Right
  | CursorArea.Window => Location.None

/-- src/shadow.rs (declaration site): `struct ShadowSurface`, restricted to
its geometry fields; the Wayland surface/subsurface handles are not modelled. -/
structure ShadowSurface where
  x : Int
  y : Int
  width : Nat
  height : Nat
deriving DecidableEq

/-- The array `shadow_surfaces: [ShadowSurface; 4]` of `GtkFrame`.
Modelled from the spec: `ShadowPart` and `ShadowPart::index` live in
src/shadow.rs, which is not part of the provided sources; the index mapping
Top→0, Left→1, Right→2, Bottom→3 is fixed by the positional comments of
`init_shadow_surfaces_pos` and the zip order of `draw_shadow` in src/lib.rs,
so the array is represented as one named field per part. -/
structure ShadowRects where
  top : ShadowSurface
  left : ShadowSurface
  right : ShadowSurface
  bottom : ShadowSurface
deriving DecidableEq

/-- src/lib.rs: `init_shadow_surfaces_pos`, applied to the all-zero
surfaces created by `GtkFrame::new`. -/
def init_shadow_surfaces_pos (s : ShadowRects) : ShadowRects :=
  { s with
    top := { s.top with
      x := -(BORDER_SIZE : Int)
      y := -((HEADER_SIZE : Int) + (BORDER_SIZE : Int))
      height := BORDER_SIZE }
    left := { s.left with
      x := -(BORDER_SIZE : Int)
      y := -(HEADER_SIZE : Int)
      width := BORDER_SIZE }
    right := { s.right with
      y := -(HEADER_SIZE : Int)
      width := BORDER_SIZE }
    bottom := { s.bottom with
      x := -(BORDER_SIZE : Int)
      height := BORDER_SIZE } }

/-- The all-zero shadow surfaces allocated by `GtkFrame::new` before
`init_shadow_surfaces_pos` runs on them. -/
def zeroShadowRects : ShadowRects :=
  { top := ⟨0, 0, 0, 0⟩, left := ⟨0, 0, 0, 0⟩, right := ⟨0, 0, 0, 0⟩
    bottom := ⟨0, 0, 0, 0⟩ }

/-- src/lib.rs: `struct GtkFrame`, restricted to the state the embedded
operations read or write (pool, title, Wayland handles and the shadow
drawing theme are not modelled). -/
structure GtkFrame where
  hidden : Bool
  dirty : Bool
  should_sync : Bool
  scale_factor : Nat
  resizable : Bool
  width : Option Nat
  height : Option Nat
  buttons_at_end : Bool
  buttons : List ButtonState
  state : WindowState
  wm_capabilities : WindowManagerCapabilities
  mouse : MouseState
  shadow_surfaces : ShadowRects
deriving DecidableEq

/-- src/lib.rs: `GtkFrame::resize` (`width`, `height` are the values of the
`NonZeroU32` arguments). -/
def GtkFrame.resize (self : GtkFrame) (width height : Nat) : GtkFrame :=
  let s := self.shadow_surfaces
  { self with
    width := some width
    height := some height
    shadow_surfaces :=
      { s with
        top := { s.top with width := width + 2 * BORDER_SIZE }
        bottom := { s.bottom with
          width := width + 2 * BORDER_SIZE
          y := (height : Int) }
        left := { s.left with height := height + HEADER_SIZE }
        right := { s.right with
          height := height + HEADER_SIZE
          x := (width : Int) } } }

/-- src/lib.rs: `GtkFrame::update_dirty_by_button_cursor_pos`. -/
def GtkFrame.update_dirty_by_button_cursor_pos (self : GtkFrame) : GtkFrame :=
  if !self.mouse.in_frame then self
  else
    match self.mouse.cursor_pos with
    | none => self
    | some cursor_pos =>
      if self.buttons.any (fun state => in_button cursor_pos state) then
        { self with dirty := true }
      else self

/-- src/lib.rs: `GtkFrame::on_click` (`DecorationsFrame` impl). -/
def GtkFrame.on_click (self : GtkFrame) (timestamp : ℚ) (click : FrameClick)
    (pressed : Bool) : GtkFrame × Option FrameAction :=
  let mouse_action :=
    match click with
    | FrameClick.Normal =>
      self.mouse.click timestamp pressed self.resizable self.state self.wm_capabilities
    | FrameClick.Alternate =>
      self.mouse.alternate_click pressed self.wm_capabilities
  let self := { self with mouse := mouse_action.1 }
  (self.update_dirty_by_button_cursor_pos, mouse_action.2)

/-- src/lib.rs: `GtkFrame::click_point_moved` (`DecorationsFrame` impl).
The Rust method receives a surface id and maps it to a `CursorArea` through
`get_cursor_area`; Wayland object ids are not modelled, so the method is
embedded with the resulting `CursorArea` as its argument. -/
def GtkFrame.click_point_moved (self : GtkFrame) (cursor_area : CursorArea)
    (x y : ℚ) : GtkFrame × Option CursorIcon :=
  match self.width, self.height with
  | some width, some height =>
    let mouse_loc := mouse_location self.buttons x y width height cursor_area
    let mouse_icon := self.mouse.moved mouse_loc x y self.resizable self.state
    let self := { self with mouse := mouse_icon.1 }
    let self := self.update_dirty_by_button_cursor_pos
    if mouse_loc = Location.None then (self, none) else (self, some mouse_icon.2)
  | _, _ => (self, some CursorIcon.Default)

/-- src/lib.rs: `GtkFrame::click_point_left` (`DecorationsFrame` impl). -/
def GtkFrame.click_point_left (self : GtkFrame) : GtkFrame :=
  { self with mouse := self.mouse.left }

/-- The non-IO part of `GtkFrame::new`: initial field values (buttons come
from `get_button_layout`, with zeroed hit-rectangles). -/
def GtkFrame.newFrame (buttons_at_end : Bool) (kinds : List ButtonKind) : GtkFrame :=
  { hidden := false
    dirty := true
    should_sync := true
    scale_factor := 1
    resizable := true
    width := none
    height := none
    buttons_at_end := buttons_at_end
    buttons := kinds.map fun kind =>
      { x := 0, y := 0, width := 0, height := 0, button_kind := kind }
    state := ⟨false, false, false, false⟩
    wm_capabilities := ⟨true, true, true⟩
    mouse := MouseState.default
    shadow_surfaces := init_shadow_surfaces_pos zeroShadowRects }

/-- Rust `str::split(sep)` on a single-character separator; strings are
modelled as their character lists so that splitting is kernel-executable.
Splitting the empty string yields `[[]]`, exactly as in Rust. -/
def splitOnChar (sep : Char) : List Char → List (List Char)
  | [] => [[]]
  | c :: cs =>
    match splitOnChar sep cs with
    | [] => [[]]
    | r :: rs => if c = sep then [] :: r :: rs else (c :: r) :: rs

/-- src/layout.rs: `collect_buttons`. -/
def collect_buttons (config : List Char) : List ButtonKind :=
  (((splitOnChar ',' config).take 3).filterMap fun kind =>
    if kind = "close".toList then some ButtonKind.Close
    else if kind = "maximize".toList then some ButtonKind.Maximize
    else if kind = "minimize".toList then some ButtonKind.Minimize
    else none).reverse

/-- The parsing part of src/layout.rs `get_button_layout_config`; the
dbus-send invocation is IO and is modelled by its optional raw stdout
(`none` when the command failed or produced non-UTF-8 output).
`rsplit(' ').next()` is the last space-separated word. -/
def get_button_layout_config (raw : Option (List Char)) :
    Option (List Char × List Char) :=
  match raw with
  | none => none
  | some config_string =>
    match (splitOnChar ' ' config_string).getLast? with
    | none => none
    | some last_word =>
      match (splitOnChar ':' last_word).take 2 with
      | [l, r] => some (l, r)
      | _ => none

/-- src/layout.rs: `get_button_layout`, as a function of the raw
configuration-query outcome. -/
def get_button_layout (raw : Option (List Char)) : Bool × List ButtonKind :=
  match get_button_layout_config raw with
  | none =>
    (true, [ButtonKind.Minimize, ButtonKind.Maximize, ButtonKind.Close])
  | some (l, r) =>
    let buttons := collect_buttons l
    if buttons ≠ [] then (false, buttons)
    else
      let buttons := collect_buttons r
      if buttons ≠ [] then (true, buttons)
      else (true, [ButtonKind.Minimize, ButtonKind.Maximize, ButtonKind.Close])

/-- A frame freshly produced by `GtkFrame::new` with the fallback button
layout, before any resize. -/
def freshFrame : GtkFrame :=
  GtkFrame.newFrame true [ButtonKind.Minimize, ButtonKind.Maximize, ButtonKind.Close]

/-- A default mouse state parked over the head bar. -/
def headMouse : MouseState :=
  { MouseState.default with location := Location.Head }

/-- A default mouse state parked over the top edge. -/
def topMouse : MouseState :=
  { MouseState.default with location := Location.Top }

/-- The resize edge `MouseState::click` associates with each edge or corner
location (statement vocabulary for the claims; `none` on the non-edge
locations). -/
def resizeEdgeOf : Location → Option ResizeEdge
  | Location.Top => some ResizeEdge.Top
  | Location.TopLeft => some ResizeEdge.TopLeft
  | Location.Left => some ResizeEdge.Left
  | Location.BottomLeft => some ResizeEdge.BottomLeft
  | Location.Bottom => some ResizeEdge.Bottom
  | Location.BottomRight => some ResizeEdge.BottomRight
  | Location.Right => some ResizeEdge.Right
  | Location.TopRight => some ResizeEdge.TopRight
  | _ => none

lemma saturatingSub_add_left (t d : ℚ) (hd : 0 ≤ d) : saturatingSub (t + d) t = d := by
  simp [saturatingSub, hd]

/-- Claim C2: with the MAXIMIZE capability present and the mouse on `Head`,
two presses 399 ms apart make the second press a double click
(`Maximize`, or `UnMaximize` when the window is maximized), while presses
401 ms apart make the second press a `Move`. -/
theorem claim2_double_click (m : MouseState) (t : ℚ) (r : Bool)
    (st : WindowState) (wm : WindowManagerCapabilities)
    (hloc : m.location = Location.Head) (hcap : wm.maximize = true) :
    ((m.click t true r st wm).1.click (t + 399) true r st wm).2
      = some (if st.maximized then FrameAction.UnMaximize else FrameAction.Maximize) ∧
    ((m.click t true r st wm).1.click (t + 401) true r st wm).2
      = some FrameAction.Move := by
  obtain ⟨loc, cp, bp, lc⟩ := m
  simp only [MouseState.location] at hloc
  subst hloc
  have h399 : saturatingSub (t + 399) t < DOUBLE_CLICK_DURATION := by
    rw [saturatingSub_add_left t 399 (by norm_num)]
    norm_num [DOUBLE_CLICK_DURATION]
  have h401 : ¬ saturatingSub (t + 401) t < DOUBLE_CLICK_DURATION := by
    rw [saturatingSub_add_left t 401 (by norm_num)]
    norm_num [DOUBLE_CLICK_DURATION]
  simp [MouseState.click, hcap, h399, h401]

/-- Claim C2 witness at a concrete double click. -/
theorem claim2_witness :
    ((headMouse.click 0 true true ⟨false, false, false, false⟩ ⟨true, true, true⟩).1.click
        399 true true ⟨false, false, false, false⟩ ⟨true, true, true⟩).2
      = some FrameAction.Maximize ∧
    ((headMouse.click 0 true true ⟨false, false, false, false⟩ ⟨true, true, true⟩).1.click
        401 true true ⟨false, false, false, false⟩ ⟨true, true, true⟩).2
      = some FrameAction.Move := by
  simpa using
    claim2_double_click headMouse 0 true ⟨false, false, false, false⟩ ⟨true, true, true⟩ rfl rfl

/-- Claim C3 counterexample: a click with `pressed = false` (a release) on
the `Top` edge of a resizable frame emits `Resize(Top)`, while the claim
says a release at an edge location emits no action. -/
theorem claim3_counterexample :
    (topMouse.click 0 false true ⟨false, false, false, false⟩ ⟨true, true, true⟩).2
        = some (FrameAction.Resize ResizeEdge.Top) ∧
    some (FrameAction.Resize ResizeEdge.Top) ≠ (none : Option FrameAction) := by
  decide

/-- Claim C3 (amended): at every edge or corner location, `click` emits
`Resize` of the corresponding edge for ANY `pressed` value (press and
release alike) when resizable, and emits nothing when not resizable. -/
theorem claim3_resize_click (m : MouseState) (t : ℚ) (pressed : Bool)
    (st : WindowState) (wm : WindowManagerCapabilities) (e : ResizeEdge)
    (he : resizeEdgeOf m.location = some e) :
    (m.click t pressed true st wm).2 = some (FrameAction.Resize e) ∧
    (m.click t pressed false st wm).2 = none := by
  obtain ⟨loc, cp, bp, lc⟩ := m
  simp only [MouseState.location] at he
  cases loc <;> simp_all [resizeEdgeOf, MouseState.click]

/-- Claim C3 witness: press and release on the `Top` edge. -/
theorem claim3_witness :
    (topMouse.click 0 true true ⟨false, false, false, false⟩ ⟨true, true, true⟩).2
        = some (FrameAction.Resize ResizeEdge.Top) ∧
    (topMouse.click 0 true false ⟨false, false, false, false⟩ ⟨true, true, true⟩).2 = none :=
  claim3_resize_click topMouse 0 true ⟨false, false, false, false⟩ ⟨true, true, true⟩
    ResizeEdge.Top rfl

/-- Claim C10: when no pointer move has ever recorded a cursor position,
`alternate_click` emits no action (in particular `ShowMenu` is only emitted
with a previously recorded cursor position), for every `pressed` value,
location and capability set. -/
theorem claim10_no_menu_without_pos (m : MouseState) (pressed : Bool)
    (wm : WindowManagerCapabilities) (h : m.cursor_pos = none) :
    (m.alternate_click pressed wm).2 = none := by
  obtain ⟨loc, cp, bp, lc⟩ := m
  simp only [MouseState.cursor_pos] at h
  subst h
  cases loc <;> simp [MouseState.alternate_click]

/-- Claim C10 witness: head location, menu capability and `pressed = true`,
but no recorded cursor position. -/
theorem claim10_witness :
    (headMouse.alternate_click true ⟨true, true, true⟩).2 = none :=
  claim10_no_menu_without_pos headMouse true ⟨true, true, true⟩ rfl

/-- The base offsets and thicknesses of the four shadow surfaces, as
established by `init_shadow_surfaces_pos` and untouched by
`GtkFrame::resize`. -/
def shadowBase (s : ShadowRects) : Prop :=
  s.top.x = -(BORDER_SIZE : Int) ∧
  s.top.y = -((HEADER_SIZE : Int) + (BORDER_SIZE : Int)) ∧
  s.top.height = BORDER_SIZE ∧
  s.left.x = -(BORDER_SIZE : Int) ∧
  s.left.y = -(HEADER_SIZE : Int) ∧
  s.left.width = BORDER_SIZE ∧
  s.right.y = -(HEADER_SIZE : Int) ∧
  s.right.width = BORDER_SIZE ∧
  s.bottom.x = -(BORDER_SIZE : Int) ∧
  s.bottom.height = BORDER_SIZE

lemma shadowBase_init (s : ShadowRects) : shadowBase (init_shadow_surfaces_pos s) := by
  simp [shadowBase, init_shadow_surfaces_pos]

lemma shadowBase_resize (f : GtkFrame) (w h : Nat)
    (hs : shadowBase f.shadow_surfaces) :
    shadowBase (f.resize w h).shadow_surfaces := by
  obtain ⟨h1, h2, h3, h4, h5, h6, h7, h8, h9, h10⟩ := hs
  simp_all [shadowBase, GtkFrame.resize]

/-- Claim C4: after `resize(width, height)` on a frame whose shadow surfaces
carry the base offsets from `init_shadow_surfaces_pos` (as every frame
does: the base holds initially and is preserved by every resize), the four
shadow-edge rectangles are exactly Top `(-10, -60, width+20, 10)`,
Bottom `(-10, height, width+20, 10)`, Left `(-10, -50, 10, height+50)` and
Right `(width, -50, 10, height+50)`. -/
theorem claim4_shadow_geometry (f : GtkFrame) (w h : Nat)
    (hs : shadowBase f.shadow_surfaces) :
    (f.resize w h).shadow_surfaces =
      { top := ⟨-10, -60, w + 20, 10⟩
        left := ⟨-10, -50, 10, h + 50⟩
        right := ⟨(w : Int), -50, 10, h + 50⟩
        bottom := ⟨-10, (h : Int), w + 20, 10⟩ } := by
  obtain ⟨h1, h2, h3, h4, h5, h6, h7, h8, h9, h10⟩ := hs
  simp_all [GtkFrame.resize, BORDER_SIZE, HEADER_SIZE]

/-- Claim C4 witness: `resize(800, 600)` on a fresh frame gives
Top `{x:-10, y:-60, w:820, h:10}` and the other three edges per the
formulas. -/
theorem claim4_witness :
    shadowBase freshFrame.shadow_surfaces ∧
    (freshFrame.resize 800 600).shadow_surfaces =
      { top := ⟨-10, -60, 820, 10⟩
        left := ⟨-10, -50, 10, 650⟩
        right := ⟨800, -50, 10, 650⟩
        bottom := ⟨-10, 600, 820, 10⟩ } :=
  ⟨⟨rfl, rfl, rfl, rfl, rfl, rfl, rfl, rfl, rfl, rfl⟩,
   by simpa using claim4_shadow_geometry freshFrame 800 600
        ⟨rfl, rfl, rfl, rfl, rfl, rfl, rfl, rfl, rfl, rfl⟩⟩

/-- Claim C8: while the frame's width or height is unknown,
`click_point_moved` reports the default cursor and leaves the whole frame —
in particular the stored mouse location and cursor position — unchanged,
without invoking the hit-testing function. -/
theorem claim8_unknown_geometry (f : GtkFrame) (area : CursorArea) (x y : ℚ)
    (h : f.width = none ∨ f.height = none) :
    f.click_point_moved area x y = (f, some CursorIcon.Default) := by
  rcases h with h | h <;>
    cases hw : f.width <;> cases hh : f.height <;>
    simp_all [GtkFrame.click_point_moved]

/-- Claim C8 witness: a fresh frame has no geometry yet; a pointer move
returns the default cursor and changes nothing. -/
theorem claim8_witness :
    freshFrame.click_point_moved CursorArea.Frame 10 10
      = (freshFrame, some CursorIcon.Default) :=
  claim8_unknown_geometry freshFrame CursorArea.Frame 10 10 (Or.inl rfl)

/-- Claim C9: whenever the button-layout query fails or neither side of the
parsed configuration yields a recognized button, `get_button_layout`
returns exactly `(true, [Minimize, Maximize, Close])`. -/
theorem claim9_layout_fallback (raw : Option (List Char))
    (h : ∀ l r, get_button_layout_config raw = some (l, r) →
          collect_buttons l = [] ∧ collect_buttons r = []) :
    get_button_layout raw
      = (true, [ButtonKind.Minimize, ButtonKind.Maximize, ButtonKind.Close]) := by
  unfold get_button_layout
  cases hc : get_button_layout_config raw with
  | none => rfl
  | some p =>
    obtain ⟨l, r⟩ := p
    obtain ⟨h1, h2⟩ := h l r hc
    simp [h1, h2]

/-- Claim C9 witness: a config string whose sides hold no known button
names falls back to the default layout. -/
theorem claim9_witness :
    get_button_layout (some "foo:bar".toList)
      = (true, [ButtonKind.Minimize, ButtonKind.Maximize, ButtonKind.Close]) :=
  claim9_layout_fallback (some "foo:bar".toList) (by
    intro l r hc
    rw [show get_button_layout_config (some "foo:bar".toList)
          = some ("foo".toList, "bar".toList) from by decide] at hc
    obtain ⟨rfl, rfl⟩ : "foo".toList = l ∧ "bar".toList = r := by simpa using hc
    exact ⟨by decide, by decide⟩)

/-- Claim C7: `alternate_click` resets double-click tracking — a normal
`Head` press at `t1`, then an alternate click (any `pressed` value, any
capabilities), then a normal `Head` press at `t2` with `t2 - t1 < 400` ms
yields `Move` on the second normal press, never `Maximize`/`UnMaximize`. -/
theorem claim7_alternate_resets (m : MouseState) (t1 t2 : ℚ) (r1 r2 pA : Bool)
    (st1 st2 : WindowState) (wm1 wm2 wmA : WindowManagerCapabilities)
    (hloc : m.location = Location.Head) (_hgap : t2 - t1 < 400) :
    ((((m.click t1 true r1 st1 wm1).1.alternate_click pA wmA).1).click t2 true r2 st2 wm2).2
      = some FrameAction.Move := by
  obtain ⟨loc, cp, bp, lc⟩ := m
  simp only [MouseState.location] at hloc
  subst hloc
  by_cases h1 : wm1.maximize <;> by_cases h2 : wm2.maximize <;>
    simp [MouseState.click, MouseState.alternate_click, h1, h2]

/-- Claim C7 witness: press at 0 ms, alternate click, press at 100 ms —
the second press moves instead of maximizing. -/
theorem claim7_witness :
    ((((headMouse.click 0 true true ⟨false, false, false, false⟩
          ⟨true, true, true⟩).1.alternate_click true ⟨true, true, true⟩).1).click
        100 true true ⟨false, false, false, false⟩ ⟨true, true, true⟩).2
      = some FrameAction.Move :=
  claim7_alternate_resets headMouse 0 100 true true true
    ⟨false, false, false, false⟩ ⟨false, false, false, false⟩
    ⟨true, true, true⟩ ⟨true, true, true⟩ ⟨true, true, true⟩ rfl (by norm_num)

/-- Claim C1 counterexample: `(2, 2)` lies strictly inside the
hit-rectangle `(0, 0, 10, 10)` of a configured close button, yet on the
header surface the hit-test returns `TopLeft` (the corner test precedes the
button test), not `Button(Close)`. -/
theorem claim1_counterexample :
    ((0 : ℚ) < 2 ∧ (2 : ℚ) < 0 + 10 ∧ (0 : ℚ) < 2 ∧ (2 : ℚ) < 0 + 10) ∧
    mouse_location [⟨0, 0, 10, 10, ButtonKind.Close⟩] 2 2 100 100 CursorArea.Frame
      = Location.TopLeft ∧
    Location.TopLeft ≠ Location.Button ButtonKind.Close :=
  ⟨by norm_num, by decide, by decide⟩

/-- Claim C1 (amended): on the header surface, a cursor position strictly
inside a button's hit-rectangle that escapes the corner/top strips
(`y > 5` suffices) yields `Button` of the FIRST configured button whose
rectangle contains it — in particular the button result takes precedence
over `Head`. -/
theorem claim1_button_hit (pre post : List ButtonState) (b : ButtonState)
    (x y : ℚ) (width height : Nat)
    (hy : 5 < y)
    (hmiss : ∀ b' ∈ pre, in_button (x, y) b' = false)
    (hx1 : (b.x : ℚ) < x) (hx2 : x < ((b.x + (b.width : Int) : Int) : ℚ))
    (hy1 : (b.y : ℚ) < y) (hy2 : y < ((b.y + (b.height : Int) : Int) : ℚ)) :
    mouse_location (pre ++ b :: post) x y width height CursorArea.Frame
      = Location.Button b.button_kind := by
  have hb : in_button (x, y) b = true := by
    simp only [in_button, Bool.and_eq_true, decide_eq_true_eq]
    exact ⟨⟨⟨le_of_lt hx1, le_of_lt hx2⟩, le_of_lt hy1⟩, le_of_lt hy2⟩
  have hy5 : ¬ (y ≤ 5) := not_le.mpr hy
  have hy5' : ¬ (y < 5) := by linarith
  have hfind : ∀ (l : List ButtonState), (∀ b' ∈ l, in_button (x, y) b' = false) →
      (l ++ b :: post).find? (fun s => in_button (x, y) s) = some b := by
    intro l
    induction l with
    | nil =>
      intro _
      simp [List.find?, hb]
    | cons a as ih =>
      intro hm
      have ha : in_button (x, y) a = false := hm a (by simp)
      simp only [List.cons_append, List.find?, ha]
      exact ih fun b' hmem => hm b' (by simp [hmem])
  simp only [mouse_location]
  rw [if_neg (by tauto), if_neg (by tauto), if_neg (by tauto), hfind pre hmiss]

/-- Claim C1 witness: `(20, 20)` strictly inside the close button's
rectangle `(10, 10, 20, 20)`, with an earlier minimize button missing the
cursor, classifies as `Button(Close)`. -/
theorem claim1_witness :
    mouse_location
        [⟨500, 0, 40, 40, ButtonKind.Minimize⟩, ⟨10, 10, 20, 20, ButtonKind.Close⟩]
        20 20 100 100 CursorArea.Frame
      = Location.Button ButtonKind.Close :=
  claim1_button_hit [⟨500, 0, 40, 40, ButtonKind.Minimize⟩] []
    ⟨10, 10, 20, 20, ButtonKind.Close⟩ 20 20 100 100
    (by norm_num) (by decide) (by norm_num) (by norm_num) (by norm_num) (by norm_num)

lemma wrapSub5_eq (w : Nat) (h5 : 5 ≤ w) (h32 : w < 2 ^ 32) :
    ((wrapSub5 w : Nat) : ℚ) = (w : ℚ) - 5 := by
  have hn : wrapSub5 w = w - 5 := by
    unfold wrapSub5
    omega
  rw [hn, Nat.cast_sub h5]
  norm_num

/-- Claim C5 counterexample: on the header surface with `width = height =
100` and no buttons, the position `(2, 98)` satisfies `x < 5` and
`y > height - 5`, yet the hit-test returns `Head`, not `BottomLeft`: the
header branch has no bottom corners. -/
theorem claim5_counterexample :
    ((2 : ℚ) < 5 ∧ (100 : ℚ) - 5 < 98) ∧
    mouse_location [] 2 98 100 100 CursorArea.Frame = Location.Head ∧
    Location.Head ≠ Location.BottomLeft :=
  ⟨by norm_num, by decide, by decide⟩

/-- Claim C5 (amended): on the header surface `x < 5 ∧ y < 5` gives
`TopLeft`, and (for `10 ≤ width < 2^32`, so the corner strips are disjoint)
`x > width - 5 ∧ y < 5` gives `TopRight`; the bottom corners are never
returned on the header surface. -/
theorem claim5_header_corners (bs : List ButtonState) (x y : ℚ) (w h : Nat)
    (hw10 : 10 ≤ w) (hw32 : w < 2 ^ 32) :
    (x < 5 → y < 5 → mouse_location bs x y w h CursorArea.Frame = Location.TopLeft) ∧
    ((w : ℚ) - 5 < x → y < 5 →
      mouse_location bs x y w h CursorArea.Frame = Location.TopRight) ∧
    mouse_location bs x y w h CursorArea.Frame ≠ Location.BottomLeft ∧
    mouse_location bs x y w h CursorArea.Frame ≠ Location.BottomRight := by
  have hw5 : ((wrapSub5 w : Nat) : ℚ) = (w : ℚ) - 5 := wrapSub5_eq w (by omega) hw32
  have hwq : (10 : ℚ) ≤ (w : ℚ) := by exact_mod_cast hw10
  refine ⟨?_, ?_, ?_, ?_⟩
  · intro hx hy
    simp only [mouse_location]
    rw [if_pos ⟨le_of_lt hx, le_of_lt hy⟩]
  · intro hx hy
    have hx5 : ¬ (x ≤ 5) := by
      push_neg
      linarith
    simp only [mouse_location]
    rw [if_neg (by tauto), if_pos ⟨by rw [hw5]; linarith, le_of_lt hy⟩]
  · simp only [mouse_location]
    split
    · simp
    · split
      · simp
      · split
        · simp
        · rcases hfind : bs.find? (fun s => in_button (x, y) s) with _ | s <;>
            simp [hfind]
  · simp only [mouse_location]
    split
    · simp
    · split
      · simp
      · split
        · simp
        · rcases hfind : bs.find? (fun s => in_button (x, y) s) with _ | s <;>
            simp [hfind]

/-- Claim C5 witness: both top corners at concrete positions, and a
bottom-corner position that does not classify as `BottomLeft`. -/
theorem claim5_witness :
    mouse_location [] 2 2 100 100 CursorArea.Frame = Location.TopLeft ∧
    mouse_location [] 98 2 100 100 CursorArea.Frame = Location.TopRight ∧
    mouse_location [] 2 98 100 100 CursorArea.Frame ≠ Location.BottomLeft :=
  ⟨(claim5_header_corners [] 2 2 100 100 (by norm_num) (by norm_num)).1
      (by norm_num) (by norm_num),
   (claim5_header_corners [] 98 2 100 100 (by norm_num) (by norm_num)).2.1
      (by norm_num) (by norm_num),
   (claim5_header_corners [] 2 98 100 100 (by norm_num) (by norm_num)).2.2.1⟩

lemma update_dirty_preserves (f : GtkFrame) :
    f.update_dirty_by_button_cursor_pos.mouse = f.mouse ∧
    f.update_dirty_by_button_cursor_pos.buttons = f.buttons := by
  unfold GtkFrame.update_dirty_by_button_cursor_pos
  split
  · exact ⟨rfl, rfl⟩
  · split
    · exact ⟨rfl, rfl⟩
    · split <;> exact ⟨rfl, rfl⟩

lemma update_dirty_sets (f : GtkFrame) (cp : ℚ × ℚ)
    (h1 : f.mouse.in_frame = true)
    (h2 : f.mouse.cursor_pos = some cp)
    (h3 : f.buttons.any (fun b => in_button cp b) = true) :
    f.update_dirty_by_button_cursor_pos.dirty = true := by
  simp [GtkFrame.update_dirty_by_button_cursor_pos, h1, h2, h3]

lemma hover_dirty_update (f : GtkFrame) (cp : ℚ × ℚ)
    (h1 : f.update_dirty_by_button_cursor_pos.mouse.in_frame = true)
    (h2 : f.update_dirty_by_button_cursor_pos.mouse.cursor_pos = some cp)
    (h3 : f.update_dirty_by_button_cursor_pos.buttons.any
            (fun b => in_button cp b) = true) :
    f.update_dirty_by_button_cursor_pos.dirty = true := by
  obtain ⟨hm, hb⟩ := update_dirty_preserves f
  rw [hm] at h1 h2
  rw [hb] at h3
  exact update_dirty_sets f cp h1 h2 h3

/-- A concrete frame with known geometry, one close button and a clean
dirty flag, used for the C6 counterexample and witness. -/
def frameC6 : GtkFrame :=
  { freshFrame with
    dirty := false
    width := some 200
    height := some 200
    buttons := [⟨0, 0, 100, 100, ButtonKind.Close⟩] }

/-- Claim C6 counterexample: a pointer move arriving on the left shadow
surface at `(50, 50)` lands inside the close button's hit-rectangle (and
records that cursor position), yet the dirty flag stays `false`: the
dirtiness update is gated on the mouse location being in-frame. -/
theorem claim6_counterexample :
    in_button (50, 50) ⟨0, 0, 100, 100, ButtonKind.Close⟩ = true ∧
    (frameC6.click_point_moved CursorArea.LeftShadow 50 50).1.mouse.cursor_pos
      = some (50, 50) ∧
    (frameC6.click_point_moved CursorArea.LeftShadow 50 50).1.dirty = false := by
  decide

/-- Claim C6 (amended): after a pointer move with known geometry, or after
any click, if the resulting mouse location is in-frame and the stored
cursor position lies inside some configured button's hit-rectangle, then
the dirty flag is `true` — regardless of whether the location changed. -/
theorem claim6_hover_dirty (f : GtkFrame) (area : CursorArea) (x y t : ℚ)
    (click : FrameClick) (pressed : Bool) (cp : ℚ × ℚ) :
    (∀ w h, f.width = some w → f.height = some h →
      (f.click_point_moved area x y).1.mouse.in_frame = true →
      (f.click_point_moved area x y).1.mouse.cursor_pos = some cp →
      (f.click_point_moved area x y).1.buttons.any (fun b => in_button cp b) = true →
      (f.click_point_moved area x y).1.dirty = true) ∧
    ((f.on_click t click pressed).1.mouse.in_frame = true →
      (f.on_click t click pressed).1.mouse.cursor_pos = some cp →
      (f.on_click t click pressed).1.buttons.any (fun b => in_button cp b) = true →
      (f.on_click t click pressed).1.dirty = true) := by
  constructor
  · intro w h hw hh
    have hred : (f.click_point_moved area x y).1
        = ({ f with mouse := (f.mouse.moved
              (mouse_location f.buttons x y w h area) x y f.resizable f.state).1 }
            : GtkFrame).update_dirty_by_button_cursor_pos := by
      simp only [GtkFrame.click_point_moved, hw, hh]
      split <;> rfl
    rw [hred]
    exact fun h1 h2 h3 => hover_dirty_update _ cp h1 h2 h3
  · have hred : (f.on_click t click pressed).1
        = ({ f with mouse :=
              (match click with
              | FrameClick.Normal =>
                f.mouse.click t pressed f.resizable f.state f.wm_capabilities
              | FrameClick.Alternate =>
                f.mouse.alternate_click pressed f.wm_capabilities).1 }
            : GtkFrame).update_dirty_by_button_cursor_pos := rfl
    rw [hred]
    exact fun h1 h2 h3 => hover_dirty_update _ cp h1 h2 h3

/-- Claim C6 witness: the same frame, with the move arriving on the header
surface so the location is `Button(Close)`: the dirty flag is forced. -/
theorem claim6_witness :
    (frameC6.click_point_moved CursorArea.Frame 50 50).1.dirty = true :=
  (claim6_hover_dirty frameC6 CursorArea.Frame 50 50 0 FrameClick.Normal true (50, 50)).1
    200 200 rfl rfl (by decide) (by decide) (by decide)

end SctkGtk
